import Mathlib

/-!
Shallow embedding of `bitscan.go` (whats-this/bitscan): an asynchronous
fetch-scan-classify-notify pipeline.  Go functions are embedded as pure Lean
functions; process-global mutable state (`tmpDir`) is threaded explicitly
through a `St` record; interactions with the outside world (filesystem,
SeaweedFS, clamscan, webhook endpoint, random token generator) are supplied by
an `Env` record of oracles; every side effect performed by the pipeline is
recorded in a trace of `Action`s.
-/

namespace Bitscan

/-- Go: `const applicationJSON = "application/json"`. -/
def applicationJSON : String := "application/json"

/-- Go: `type object struct \x7b ... \x7d` — a bitbin object as decoded from the
request body.  Pointer-typed fields (`*string`, `*uint`) become `Option`;
`nil` is `none`.  The Go field `Type` (a `uint8`, modelled as `Nat`) is named
`Typ` since `Type` is a Lean keyword. -/
structure object where
  BucketKey : String
  Bucket : String
  Key : String
  Dir : String
  Typ : Nat
  BackendFileID : Option String
  DestURL : Option String
  ContentType : Option String
  ContentLength : Option Nat
  AuthHash : Option String
  CreatedAt : Option String
  MD5Hash : Option String
  deriving DecidableEq, Repr

/-- Go: `clamscan.Result` from sheenobu/go-clamscan, restricted to the fields
the program reads (`Found`, `Virus`, `Error`). -/
structure ClamResult where
  Found : Bool
  Virus : String
  Error : Option String
  deriving DecidableEq, Repr

/-- Side effects performed by the pipeline, recorded in order. -/
inductive Action where
  /-- `os.Stat` on a path. -/
  | statA (p : String)
  /-- `os.Mkdir` on a path. -/
  | mkdirA (p : String)
  /-- `os.Create` on a path. -/
  | createA (p : String)
  /-- `file.Chmod` on the file at a path. -/
  | chmodA (p : String)
  /-- a deletion call (`os.Remove` / `os.RemoveAll`); the source never issues
  one, the constructor exists so the frame property is statable. -/
  | removeA (p : String)
  /-- `seaweed.Get` keyed by a backend file identifier. -/
  | fetchA (fid : String)
  /-- `clamscan.Scan` on a path (scan-engine invocation). -/
  | clamA (p : String)
  /-- an invocation of the Notifier (`sendWebhook(title, text, color)`). -/
  | notifyA (title text color : String)
  /-- the outbound HTTP POST the Notifier makes when configured. -/
  | postA (url payload : String)
  /-- `log...Error(msg)`. -/
  | logErrA (msg : String)
  /-- `log.WithFields(fields).Info(msg)`. -/
  | logInfoA (fields : List (String × String)) (msg : String)
  deriving DecidableEq, Repr

/-- Oracles for everything outside the program: configuration, the
filesystem, the object store, the scan engine, the webhook endpoint, the
random token stream of `uniuri.New`, and the runtime address at which the
`MD5Hash` string pointee lives (observable only through Go's `fmt`). -/
structure Env where
  slackWebhookURL : String
  osTempDir : String
  uni : Nat → String
  statRes : String → Option Bool
  mkdirRes : String → Option String
  createRes : String → Option String
  fetchRes : String → Option String
  clamRes : String → Except String ClamResult
  postRes : String → Option String
  md5Addr : String

/-- Process-global mutable state: the `tmpDir` variable and the position in
the random token stream. -/
structure St where
  tmpDir : String
  ctr : Nat
  deriving DecidableEq, Repr

/-- Go: `path.Ext` — the suffix beginning at the final dot in the final
slash-separated element of the path; empty if there is none.  Helper walking
the reversed character list. -/
def pathExtAux : List Char → List Char → String
  | [], _ => ""
  | c :: rest, acc =>
    if c = '/' then ""
    else if c = '.' then String.mk (c :: acc)
    else pathExtAux rest (c :: acc)

/-- Go: `path.Ext(p)`. -/
def pathExt (s : String) : String := pathExtAux s.data.reverse []

/-- Rendering of a Go `*string` under the `fmt` verb `%s`: `fmt` does not
dereference pointers to strings, so the verb fails and prints
`%!s(*string=ADDR)` (or `%!s(*string=<nil>)` for a nil pointer). -/
def fmtSPtrString (addr : String) : Option String → String
  | none => "%!s(*string=<nil>)"
  | some _ => "%!s(*string=" ++ addr ++ ")"

/-- Rendering of a Go `*string` under `fmt.Sprint` / verb `%v` (used by the
logrus text formatter for non-string field values): the pointer's hex
address, or `<nil>`. -/
def fmtVPtrString (addr : String) : Option String → String
  | none => "<nil>"
  | some _ => addr

/-- Go: `getTempFilename(ext)` — lazily (re)creates the scratch directory and
returns a fresh randomized path inside it.  Returns the result, the updated
process state, and the trace of filesystem calls made. -/
def getTempFilename (env : Env) (st : St) (ext : String) :
    Except String String × St × List Action :=
  let st1 : St :=
    if st.tmpDir = "" then
      ⟨env.osTempDir ++ "/bitscan_" ++ env.uni st.ctr, st.ctr + 1⟩
    else st
  if env.statRes st1.tmpDir = some true then
    (Except.ok (st1.tmpDir ++ "/" ++ env.uni st1.ctr ++ ext),
     ⟨st1.tmpDir, st1.ctr + 1⟩, [Action.statA st1.tmpDir])
  else
    let td2 := env.osTempDir ++ "/bitscan_" ++ env.uni st1.ctr
    match env.mkdirRes td2 with
    | some e =>
      (Except.error e, ⟨td2, st1.ctr + 1⟩,
        [Action.statA st1.tmpDir, Action.mkdirA td2,
         Action.logErrA "failed to generate temporary directory"])
    | none =>
      (Except.ok (td2 ++ "/" ++ env.uni (st1.ctr + 1) ++ ext),
       ⟨td2, st1.ctr + 2⟩,
        [Action.statA st1.tmpDir, Action.mkdirA td2])

/-- The directory whose existence `getTempFilename` checks with `os.Stat`:
the current `tmpDir`, or the freshly generated one when `tmpDir` is unset. -/
def checkedDir (env : Env) (st : St) : String :=
  if st.tmpDir = "" then env.osTempDir ++ "/bitscan_" ++ env.uni st.ctr
  else st.tmpDir

/-- Escaping of one character in Go's `encoding/json` string encoder (the
cases relevant to the payloads this program builds). -/
def jsonEscapeChar (c : Char) : String :=
  if c = '"' then "\\\""
  else if c = '\\' then "\\\\"
  else if c = '\n' then "\\n"
  else String.mk [c]

/-- Escaping of a string by Go's `encoding/json` encoder. -/
def jsonEscape (s : String) : String := String.join (s.data.map jsonEscapeChar)

/-- Go: `json.Marshal` of the single-attachment payload
`map[string][]attachment\x7b"attachments": ...\x7d` built in `sendWebhook`;
field order follows the `attachment` struct declaration. -/
def webhookPayload (title text color : String) : String :=
  "\x7b\"attachments\":[\x7b\"fallback\":\"" ++
    jsonEscape ("**" ++ title ++ "**\n" ++ text) ++
    "\",\"color\":\"" ++ jsonEscape color ++
    "\",\"title\":\"" ++ jsonEscape title ++
    "\",\"text\":\"" ++ jsonEscape text ++ "\"\x7d]\x7d"

/-- Go: `sendWebhook(title, text, color)` — the Notifier.  Returns `none` on
success or `some err`, plus the trace: its own invocation, and the HTTP POST
when a webhook URL is configured.  `json.Marshal` of this fixed shape of
string data cannot fail, so that error branch is unreachable. -/
def sendWebhook (env : Env) (title text color : String) :
    Option String × List Action :=
  if env.slackWebhookURL = "" then
    (none, [Action.notifyA title text color])
  else
    let payload := webhookPayload title text color
    (env.postRes payload,
     [Action.notifyA title text color,
      Action.postA env.slackWebhookURL payload])

/-- Outcome of one execution of `scan`: a Go runtime panic (nil-pointer
dereference), an error return, or a `clamscan.Result`. -/
inductive RunOutcome where
  | panicked (msg : String)
  | errored (msg : String)
  | result (r : ClamResult)
  deriving DecidableEq, Repr

/-- Go: `scan(object)` — allocate a temp path, create the file, fetch the
object from SeaweedFS keyed by `*object.BackendFileID` (a nil pointer here
panics before `seaweed.Get` is called), then invoke clamscan. -/
def scan (env : Env) (st : St) (o : object) : RunOutcome × St × List Action :=
  match getTempFilename env st (pathExt o.Key) with
  | (Except.error e, st1, tr) => (RunOutcome.errored e, st1, tr)
  | (Except.ok p, st1, tr) =>
    match env.createRes p with
    | some e =>
      (RunOutcome.errored ("failed to create temporary file: " ++ e), st1,
        tr ++ [Action.createA p, Action.logErrA "failed to create temporary file"])
    | none =>
      let tr1 := tr ++ [Action.createA p, Action.chmodA p]
      match o.BackendFileID with
      | none =>
        (RunOutcome.panicked
          "runtime error: invalid memory address or nil pointer dereference",
         st1, tr1)
      | some fid =>
        match env.fetchRes fid with
        | some e =>
          (RunOutcome.errored ("failed to get file from SeaweedFS backend: " ++ e),
           st1, tr1 ++ [Action.fetchA fid,
             Action.logErrA "failed to get file from SeaweedFS backend"])
        | none =>
          match env.clamRes p with
          | Except.error e =>
            (RunOutcome.errored ("failed to scan file: " ++ e), st1,
              tr1 ++ [Action.fetchA fid, Action.clamA p,
                Action.logErrA "failed to scan file"])
          | Except.ok r =>
            (RunOutcome.result r, st1, tr1 ++ [Action.fetchA fid, Action.clamA p])

/-- Result of `processScan`: either the goroutine panicked, or it returned
(carrying the error value the `go` statement discards). -/
inductive ProcResult where
  | panicked (msg : String)
  | returned (e : Option String)
  deriving DecidableEq, Repr

/-- Go: the block `processScan` repeats after each call site of
`sendWebhook`: `err = sendWebhook(title, text, color); if err != nil \x7b
log.WithField("err", err).Error("failed to invoke webhook") \x7d; return err`.
`pre` is the trace accumulated so far. -/
def notifyAndLog (env : Env) (st1 : St) (pre : List Action)
    (title text color : String) : ProcResult × St × List Action :=
  match sendWebhook env title text color with
  | (w, trw) =>
    match w with
    | some _ =>
      (ProcResult.returned w, st1,
        pre ++ trw ++ [Action.logErrA "failed to invoke webhook"])
    | none => (ProcResult.returned none, st1, pre ++ trw)

/-- Go: `processScan(object)` — run `scan`, classify, and notify: danger
webhook on scan-pipeline error or scan-engine error, info-colored webhook plus
info log on detection, nothing when clean.  Webhook failures are logged. -/
def processScan (env : Env) (st : St) (o : object) :
    ProcResult × St × List Action :=
  match scan env st o with
  | (RunOutcome.panicked m, st1, tr) => (ProcResult.panicked m, st1, tr)
  | (RunOutcome.errored e, st1, tr) =>
    notifyAndLog env st1 tr
      ("Error scanning `" ++ o.BucketKey ++ "`")
      ("```\n" ++ e ++ "```") "danger"
  | (RunOutcome.result res, st1, tr) =>
    match res.Error with
    | some e =>
      notifyAndLog env st1 tr
        ("Error scanning `" ++ o.BucketKey ++ "`")
        ("```\n" ++ e ++ "```") "danger"
    | none =>
      if res.Found then
        notifyAndLog env st1
          (tr ++ [Action.logInfoA
            [("bucket_key", o.BucketKey), ("virus", res.Virus),
             ("md5_hash", fmtVPtrString env.md5Addr o.MD5Hash)]
            "found virus in a file"])
          ("Positive file found: `" ++ o.BucketKey ++ "`")
          ("`" ++ o.BucketKey ++ "` (`" ++ fmtSPtrString env.md5Addr o.MD5Hash ++
            "`) returned positive during scan with virus `" ++ res.Virus ++
            "`.\n\nIt has not been deleted from storage backend.") "#439FE0"
      else
        (ProcResult.returned none, st1, tr)

/-- The observable part of `go processScan(data)`: the goroutine's return
value is discarded by the `go` statement, so only state and trace remain. -/
def goProcessScan (env : Env) (st : St) (o : object) : St × List Action :=
  (processScan env st o).2

/-- Response produced by the `POST /v1/scanObject.async` handler: HTTP status
code, the `code` and `message` fields of the JSON body, and the object
dispatched to `go processScan` (if any). -/
structure HandlerResult where
  status : Nat
  bodyCode : Nat
  bodyMsg : String
  task : Option object
  deriving DecidableEq, Repr

/-- Go: `strings.HasPrefix(s, pre)`, via structural recursion on character
lists. -/
def hasPrefixB (s pre : String) : Bool := List.isPrefixOf pre.data s.data

/-- Go: the `POST /v1/scanObject.async` handler.  `ct` is the request's
`Content-Type` header; `body` is the outcome of `json.Unmarshal` on the
request body (`none` when the body is not parsable JSON). -/
def scanObjectAsyncHandler (ct : String) (body : Option object) : HandlerResult :=
  if ¬ (hasPrefixB ct applicationJSON) then
    ⟨400, 400, "Bad Request (Content-Type not JSON)", none⟩
  else
    match body with
    | none => ⟨400, 400, "Bad Request (could not parse JSON body)", none⟩
    | some data =>
      if data.Typ ≠ 0 then
        ⟨400, 400, "Bad Request (invalid object type)", none⟩
      else
        ⟨202, 201, "Accepted (processing asynchronously)", some data⟩

/-- Boolean infix test on character lists (naive substring search). -/
def listIsInfixB (needle : List Char) : List Char → Bool
  | [] => needle.isEmpty
  | c :: t => List.isPrefixOf needle (c :: t) || listIsInfixB needle t

/-- `strContains hay needle` is true when `needle` occurs as a contiguous
substring of `hay`. -/
def strContains (hay needle : String) : Bool := listIsInfixB needle.data hay.data

/-- Number of Notifier invocations in a trace. -/
def countNotify (tr : List Action) : Nat :=
  tr.countP fun a => match a with | Action.notifyA _ _ _ => true | _ => false

/-- Number of outbound webhook HTTP POSTs in a trace. -/
def countPost (tr : List Action) : Nat :=
  tr.countP fun a => match a with | Action.postA _ _ => true | _ => false

/-- Number of scan-engine invocations in a trace. -/
def countClam (tr : List Action) : Nat :=
  tr.countP fun a => match a with | Action.clamA _ => true | _ => false

/-- Number of object-store fetches in a trace. -/
def countFetch (tr : List Action) : Nat :=
  tr.countP fun a => match a with | Action.fetchA _ => true | _ => false

/-- Number of deletion calls in a trace. -/
def countRemove (tr : List Action) : Nat :=
  tr.countP fun a => match a with | Action.removeA _ => true | _ => false

/-- Number of `os.Create` calls in a trace. -/
def countCreate (tr : List Action) : Nat :=
  tr.countP fun a => match a with | Action.createA _ => true | _ => false

/-- Number of error-level log lines in a trace. -/
def countLogErr (tr : List Action) : Nat :=
  tr.countP fun a => match a with | Action.logErrA _ => true | _ => false

/-- Number of info-level log lines in a trace. -/
def countLogInfo (tr : List Action) : Nat :=
  tr.countP fun a => match a with | Action.logInfoA _ _ => true | _ => false

/-- The Notifier invocations of a trace, as (title, text, color) triples. -/
def notifyCalls (tr : List Action) : List (String × String × String) :=
  tr.filterMap fun a => match a with
    | Action.notifyA t x c => some (t, x, c)
    | _ => none

/-- Tests whether an action is the log line `processScan` emits when a
webhook invocation fails. -/
def isWebhookFailLog : Action → Bool
  | Action.logErrA m => m = "failed to invoke webhook"
  | _ => false

/-- A trace with the webhook-failure log lines removed; used to compare runs
that differ only in webhook delivery. -/
def scrubWebhookFailLog (tr : List Action) : List Action :=
  tr.filter fun a => ! isWebhookFailLog a

/-- The classification branch a pipeline run takes in `processScan`:
goroutine panic, pipeline failure (temp dir, file creation, fetch, or
scan-invocation error), scan-engine failure (`res.Error`), detection
(`res.Found`), or clean. -/
inductive BranchClass where
  | panickedB
  | pipelineFailedB
  | scanFailedB
  | detectedB
  | cleanB
  deriving DecidableEq, Repr

/-- Which classification branch `processScan` takes, read off the `scan`
result exactly as `processScan` branches on it. -/
def classifyRun (env : Env) (st : St) (o : object) : BranchClass :=
  match (scan env st o).1 with
  | RunOutcome.panicked _ => BranchClass.panickedB
  | RunOutcome.errored _ => BranchClass.pipelineFailedB
  | RunOutcome.result r =>
    match r.Error with
    | some _ => BranchClass.scanFailedB
    | none => if r.Found then BranchClass.detectedB else BranchClass.cleanB

/-- A concrete environment: webhook configured, filesystem and network
healthy, scan engine reports the EICAR signature. -/
def envEicar : Env where
  slackWebhookURL := "https://hooks.example.com/services/T/B/x"
  osTempDir := "/tmp"
  uni := fun n => "R" ++ toString n
  statRes := fun _ => none
  mkdirRes := fun _ => none
  createRes := fun _ => none
  fetchRes := fun _ => none
  clamRes := fun _ => Except.ok ⟨true, "Eicar-Test-Signature", none⟩
  postRes := fun _ => none
  md5Addr := "0xc000010250"

/-- Fresh process state: `tmpDir` unset, token stream at position 0. -/
def st0 : St := ⟨"", 0⟩

/-- The concrete object of the EICAR scenario: bucket key `bkt/key1`, MD5
`44d88612fea8a8f36de82e1278abb02f`. -/
def eicarObj : object where
  BucketKey := "bkt/key1"
  Bucket := "bkt"
  Key := "key1"
  Dir := ""
  Typ := 0
  BackendFileID := some "3,01637037d6"
  DestURL := none
  ContentType := none
  ContentLength := none
  AuthHash := none
  CreatedAt := none
  MD5Hash := some "44d88612fea8a8f36de82e1278abb02f"

/-- The EICAR object with the backend file identifier absent (the JSON field
`backend_file_id` missing from the request body, so the pointer is nil). -/
def noBfidObj : object := { eicarObj with BackendFileID := none }

/-- Environment in which creating the scratch directory fails. -/
def envMkdirFail : Env :=
  { envEicar with mkdirRes := fun _ => some "permission denied" }

/-- Environment in which the SeaweedFS fetch fails. -/
def envFetchFail : Env :=
  { envEicar with fetchRes := fun _ => some "connection refused" }

/-- Environment with no webhook URL configured and a clean scan verdict. -/
def envCleanNoHook : Env :=
  { envEicar with
      slackWebhookURL := ""
      clamRes := fun _ => Except.ok ⟨false, "", none⟩ }

/-- Environment with a webhook configured and a clean scan verdict. -/
def envClean : Env :=
  { envEicar with clamRes := fun _ => Except.ok ⟨false, "", none⟩ }

/-- The EICAR object with a non-zero (non-file) object type. -/
def typedObj : object := { eicarObj with Typ := 1 }

/-! Helper lemmas about traces. -/

theorem isWFL_statA (p : String) : isWebhookFailLog (Action.statA p) = false := rfl

theorem isWFL_mkdirA (p : String) : isWebhookFailLog (Action.mkdirA p) = false := rfl

theorem isWFL_createA (p : String) : isWebhookFailLog (Action.createA p) = false := rfl

theorem isWFL_chmodA (p : String) : isWebhookFailLog (Action.chmodA p) = false := rfl

theorem isWFL_fetchA (p : String) : isWebhookFailLog (Action.fetchA p) = false := rfl

theorem isWFL_clamA (p : String) : isWebhookFailLog (Action.clamA p) = false := rfl

theorem isWFL_notifyA (t x c : String) :
    isWebhookFailLog (Action.notifyA t x c) = false := rfl

theorem isWFL_postA (u p : String) : isWebhookFailLog (Action.postA u p) = false := rfl

theorem isWFL_logInfoA (fs : List (String × String)) (m : String) :
    isWebhookFailLog (Action.logInfoA fs m) = false := rfl

theorem isWFL_logErr_dir :
    isWebhookFailLog (Action.logErrA "failed to generate temporary directory") = false := by
  decide

theorem isWFL_logErr_create :
    isWebhookFailLog (Action.logErrA "failed to create temporary file") = false := by
  decide

theorem isWFL_logErr_fetch :
    isWebhookFailLog (Action.logErrA "failed to get file from SeaweedFS backend") = false := by
  decide

theorem isWFL_logErr_scan :
    isWebhookFailLog (Action.logErrA "failed to scan file") = false := by
  decide

theorem isWFL_logErr_webhook :
    isWebhookFailLog (Action.logErrA "failed to invoke webhook") = true := by
  decide

/-- The trace of `getTempFilename` contains only `Stat`/`Mkdir`/log-error
actions: no notifier call, no HTTP POST, no scan, no fetch, no file creation,
no deletion, no info log, and no webhook-failure log line. -/
theorem gtf_trace_quiet (env : Env) (st : St) (ext : String) :
    countNotify (getTempFilename env st ext).2.2 = 0 ∧
    countPost (getTempFilename env st ext).2.2 = 0 ∧
    countClam (getTempFilename env st ext).2.2 = 0 ∧
    countFetch (getTempFilename env st ext).2.2 = 0 ∧
    countCreate (getTempFilename env st ext).2.2 = 0 ∧
    countRemove (getTempFilename env st ext).2.2 = 0 ∧
    countLogInfo (getTempFilename env st ext).2.2 = 0 ∧
    scrubWebhookFailLog (getTempFilename env st ext).2.2 =
      (getTempFilename env st ext).2.2 := by
  simp only [getTempFilename]
  split <;> split <;> try split
  all_goals
    simp [countNotify, countPost, countClam, countFetch, countCreate, countRemove,
      countLogInfo, scrubWebhookFailLog, List.countP_cons, List.countP_nil,
      List.filter_cons, List.filter_nil, isWFL_statA, isWFL_mkdirA, isWFL_logErr_dir]

/-- On the success path, `getTempFilename` logs no error. -/
theorem gtf_ok_no_logErr (env : Env) (st : St) (ext : String) (p : String)
    (st' : St) (tr : List Action)
    (h : getTempFilename env st ext = (Except.ok p, st', tr)) :
    countLogErr tr = 0 := by
  revert h
  simp only [getTempFilename]
  split <;> split <;> try split
  all_goals intro h
  all_goals simp only [Prod.mk.injEq] at h
  all_goals try exact Except.noConfusion h.1
  all_goals obtain ⟨-, -, h3⟩ := h
  all_goals rw [← h3]
  all_goals simp [countLogErr, List.countP_cons, List.countP_nil]

/-- Traces that contain no notifier call, no HTTP POST, no deletion, no info
log, and no webhook-failure log line. -/
def Quiet (tr : List Action) : Prop :=
  countNotify tr = 0 ∧ countPost tr = 0 ∧ countRemove tr = 0 ∧
  countLogInfo tr = 0 ∧ scrubWebhookFailLog tr = tr

theorem quiet_append {a b : List Action} (ha : Quiet a) (hb : Quiet b) :
    Quiet (a ++ b) := by
  obtain ⟨a1, a2, a3, a4, a5⟩ := ha
  obtain ⟨b1, b2, b3, b4, b5⟩ := hb
  unfold Quiet countNotify countPost countRemove countLogInfo scrubWebhookFailLog at *
  simp [List.countP_append, List.filter_append, a1, a2, a3, a4, a5, b1, b2, b3, b4, b5]

theorem gtf_quiet (env : Env) (st : St) (ext : String) :
    Quiet (getTempFilename env st ext).2.2 := by
  obtain ⟨q1, q2, q3, q4, q5, q6, q7, q8⟩ := gtf_trace_quiet env st ext
  exact ⟨q1, q2, q6, q7, q8⟩

theorem quiet_create_fail (p : String) :
    Quiet [Action.createA p, Action.logErrA "failed to create temporary file"] := by
  refine ⟨?_, ?_, ?_, ?_, ?_⟩ <;>
    simp [countNotify, countPost, countRemove, countLogInfo, scrubWebhookFailLog,
      List.countP_cons, List.countP_nil, List.filter_cons, List.filter_nil,
      isWFL_createA, isWFL_logErr_create]

theorem quiet_create_ok (p : String) :
    Quiet [Action.createA p, Action.chmodA p] := by
  refine ⟨?_, ?_, ?_, ?_, ?_⟩ <;>
    simp [countNotify, countPost, countRemove, countLogInfo, scrubWebhookFailLog,
      List.countP_cons, List.countP_nil, List.filter_cons, List.filter_nil,
      isWFL_createA, isWFL_chmodA]

theorem quiet_fetch_fail (fid : String) :
    Quiet [Action.fetchA fid, Action.logErrA "failed to get file from SeaweedFS backend"] := by
  refine ⟨?_, ?_, ?_, ?_, ?_⟩ <;>
    simp [countNotify, countPost, countRemove, countLogInfo, scrubWebhookFailLog,
      List.countP_cons, List.countP_nil, List.filter_cons, List.filter_nil,
      isWFL_fetchA, isWFL_logErr_fetch]

theorem quiet_clam_fail (fid p : String) :
    Quiet [Action.fetchA fid, Action.clamA p, Action.logErrA "failed to scan file"] := by
  refine ⟨?_, ?_, ?_, ?_, ?_⟩ <;>
    simp [countNotify, countPost, countRemove, countLogInfo, scrubWebhookFailLog,
      List.countP_cons, List.countP_nil, List.filter_cons, List.filter_nil,
      isWFL_fetchA, isWFL_clamA, isWFL_logErr_scan]

theorem quiet_clam_ok (fid p : String) :
    Quiet [Action.fetchA fid, Action.clamA p] := by
  refine ⟨?_, ?_, ?_, ?_, ?_⟩ <;>
    simp [countNotify, countPost, countRemove, countLogInfo, scrubWebhookFailLog,
      List.countP_cons, List.countP_nil, List.filter_cons, List.filter_nil,
      isWFL_fetchA, isWFL_clamA]

/-- The trace of `scan` never contains a notifier call, an HTTP POST, a
deletion, an info log, or a webhook-failure log line. -/
theorem scan_quiet (env : Env) (st : St) (o : object) :
    Quiet (scan env st o).2.2 := by
  have hg := gtf_quiet env st (pathExt o.Key)
  unfold scan
  split
  next e st1 tr heq =>
    rw [heq] at hg
    exact hg
  next p st1 tr heq =>
    rw [heq] at hg
    split
    · exact quiet_append hg (quiet_create_fail p)
    · split
      · exact quiet_append hg (quiet_create_ok p)
      next fid hb =>
        split
        · exact quiet_append (quiet_append hg (quiet_create_ok p)) (quiet_fetch_fail fid)
        · split
          · exact quiet_append (quiet_append hg (quiet_create_ok p)) (quiet_clam_fail fid p)
          · exact quiet_append (quiet_append hg (quiet_create_ok p)) (quiet_clam_ok fid p)

/-- The trace of one `sendWebhook` call: exactly one notifier invocation with
the given arguments, no scan, fetch, create, delete, or log action, and no
webhook-failure log line. -/
theorem sendWebhook_trace (env : Env) (t x c : String) :
    notifyCalls (sendWebhook env t x c).2 = [(t, x, c)] ∧
    countNotify (sendWebhook env t x c).2 = 1 ∧
    countClam (sendWebhook env t x c).2 = 0 ∧
    countFetch (sendWebhook env t x c).2 = 0 ∧
    countCreate (sendWebhook env t x c).2 = 0 ∧
    countRemove (sendWebhook env t x c).2 = 0 ∧
    countLogInfo (sendWebhook env t x c).2 = 0 ∧
    countLogErr (sendWebhook env t x c).2 = 0 ∧
    scrubWebhookFailLog (sendWebhook env t x c).2 = (sendWebhook env t x c).2 := by
  unfold sendWebhook
  split <;>
    simp [notifyCalls, countNotify, countClam, countFetch, countCreate, countRemove,
      countLogInfo, countLogErr, scrubWebhookFailLog, List.countP_cons, List.countP_nil,
      List.filter_cons, List.filter_nil, List.filterMap_cons, List.filterMap_nil,
      isWFL_notifyA, isWFL_postA]

/-- With no webhook URL configured, `sendWebhook` succeeds immediately: no
HTTP POST appears in its trace. -/
theorem sendWebhook_unconfigured (env : Env) (t x c : String)
    (h : env.slackWebhookURL = "") :
    sendWebhook env t x c = (none, [Action.notifyA t x c]) := by
  unfold sendWebhook
  simp [h]

/-- A trace with no notifier invocations has no notifier calls to list. -/
theorem notifyCalls_nil {tr : List Action} (h : countNotify tr = 0) :
    notifyCalls tr = [] := by
  induction tr with
  | nil => rfl
  | cons a t ih =>
    unfold countNotify at h ih
    rw [List.countP_cons] at h
    cases a <;> simp_all [notifyCalls, List.filterMap_cons]

/-- A successful `scan` (one that returns a `clamscan.Result`) has logged no
error. -/
theorem scan_ok_no_logErr (env : Env) (st : St) (o : object) (r : ClamResult)
    (st' : St) (tr : List Action)
    (h : scan env st o = (RunOutcome.result r, st', tr)) :
    countLogErr tr = 0 := by
  revert h
  unfold scan
  split
  next e st1 trg heq =>
    intro h
    exact RunOutcome.noConfusion (Prod.mk.injEq .. ▸ h).1
  next p st1 trg heq =>
    have hq := gtf_ok_no_logErr env st (pathExt o.Key) p st1 trg heq
    split
    · intro h
      exact RunOutcome.noConfusion (Prod.mk.injEq .. ▸ h).1
    · split
      · intro h
        exact RunOutcome.noConfusion (Prod.mk.injEq .. ▸ h).1
      next fid hb =>
        split
        · intro h
          exact RunOutcome.noConfusion (Prod.mk.injEq .. ▸ h).1
        · split
          · intro h
            exact RunOutcome.noConfusion (Prod.mk.injEq .. ▸ h).1
          · intro h
            simp only [Prod.mk.injEq] at h
            obtain ⟨-, -, h3⟩ := h
            rw [← h3]
            simp [countLogErr, List.countP_append, List.countP_cons, List.countP_nil] at hq ⊢
            exact hq

/-- Trace and result of one notify-and-log block: exactly one notifier call
with the given arguments is appended, the state passes through, the returned
value is exactly the Notifier's own result, the webhook-failure log line
appears whenever the Notifier failed, and scrubbing the webhook-failure log
lines leaves the accumulated trace followed by the Notifier trace (which does
not depend on the webhook's success). -/
theorem notifyAndLog_trace (env : Env) (st1 : St) (pre : List Action)
    (t x c : String) :
    countNotify (notifyAndLog env st1 pre t x c).2.2 = countNotify pre + 1 ∧
    countPost (notifyAndLog env st1 pre t x c).2.2 =
      countPost pre + countPost (sendWebhook env t x c).2 ∧
    countClam (notifyAndLog env st1 pre t x c).2.2 = countClam pre ∧
    countFetch (notifyAndLog env st1 pre t x c).2.2 = countFetch pre ∧
    countRemove (notifyAndLog env st1 pre t x c).2.2 = countRemove pre ∧
    countLogInfo (notifyAndLog env st1 pre t x c).2.2 = countLogInfo pre ∧
    notifyCalls (notifyAndLog env st1 pre t x c).2.2 = notifyCalls pre ++ [(t, x, c)] ∧
    scrubWebhookFailLog (notifyAndLog env st1 pre t x c).2.2 =
      scrubWebhookFailLog pre ++ (sendWebhook env t x c).2 ∧
    (notifyAndLog env st1 pre t x c).2.1 = st1 ∧
    (notifyAndLog env st1 pre t x c).1 =
      ProcResult.returned (sendWebhook env t x c).1 ∧
    (∀ e, (sendWebhook env t x c).1 = some e →
      Action.logErrA "failed to invoke webhook" ∈ (notifyAndLog env st1 pre t x c).2.2) := by
  obtain ⟨w1, w2, w3, w4, w5, w6, w7, w8, w9⟩ := sendWebhook_trace env t x c
  unfold notifyAndLog
  split
  next w trw heqw =>
    rw [heqw] at w1 w2 w3 w4 w5 w6 w7 w8 w9
    simp only at w1 w2 w3 w4 w5 w6 w7 w8 w9
    split
    next e' =>
      unfold countNotify countPost countClam countFetch countRemove countLogInfo
        notifyCalls scrubWebhookFailLog at *
      simp [List.countP_append, List.countP_cons, List.countP_nil,
        List.filterMap_append, List.filterMap_cons, List.filterMap_nil,
        List.filter_append, List.filter_cons, List.filter_nil,
        isWFL_logErr_webhook, heqw, w1, w2, w3, w4, w5, w6, w7, w8, w9]
    next hwn =>
      unfold countNotify countPost countClam countFetch countRemove countLogInfo
        notifyCalls scrubWebhookFailLog at *
      simp [List.countP_append, List.filterMap_append, List.filter_append,
        heqw, w1, w2, w3, w4, w5, w6, w7, w8, w9]

/-! Claim theorems. -/

/-- C1: evidence against the claim.  A type-0 request whose JSON body lacks
`backend_file_id` is not rejected: the handler accepts it with status 202 and
dispatches the pipeline, and the pipeline then dereferences the nil
`BackendFileID` when it reaches the fetch step — `scan` creates the temp file
and panics with a nil-pointer dereference before any fetch or scan-engine
call (its trace ends at the `Chmod`, with no fetch action). -/
theorem C1_missing_backend_id_accepted_then_nil_deref :
    (scanObjectAsyncHandler "application/json; charset=utf-8" (some noBfidObj)).status = 202 ∧
    (scanObjectAsyncHandler "application/json; charset=utf-8" (some noBfidObj)).task =
      some noBfidObj ∧
    (scan envEicar st0 noBfidObj).1 =
      RunOutcome.panicked "runtime error: invalid memory address or nil pointer dereference" ∧
    (scan envEicar st0 noBfidObj).2.2 =
      [Action.statA "/tmp/bitscan_R0", Action.mkdirA "/tmp/bitscan_R1",
       Action.createA "/tmp/bitscan_R1/R2", Action.chmodA "/tmp/bitscan_R1/R2"] ∧
    countFetch (scan envEicar st0 noBfidObj).2.2 = 0 ∧
    countClam (scan envEicar st0 noBfidObj).2.2 = 0 := by
  decide

/-- C2: evidence of the divergence.  In the detected EICAR run exactly one
notification is sent (one notifier invocation, one HTTP POST), its text
contains the bucket key, the virus name, and the statement that the object
has not been deleted from the storage backend, no deletion call occurs, and
one info-level log line is emitted with the bucket key and virus name;
however the notification text does not contain the MD5 hash
`44d88612fea8a8f36de82e1278abb02f` — `fmt` renders the `*string` field as
`%!s(*string=0xc000010250)` — and the log's `md5_hash` field likewise holds
the pointer address, not the hash. -/
theorem C2_detected_notification_missing_md5 :
    countNotify (processScan envEicar st0 eicarObj).2.2 = 1 ∧
    countPost (processScan envEicar st0 eicarObj).2.2 = 1 ∧
    countRemove (processScan envEicar st0 eicarObj).2.2 = 0 ∧
    countLogInfo (processScan envEicar st0 eicarObj).2.2 = 1 ∧
    (let nc := (notifyCalls (processScan envEicar st0 eicarObj).2.2).headD ("", "", "")
     strContains nc.1 "bkt/key1" = true ∧
     strContains nc.2.1 "bkt/key1" = true ∧
     strContains nc.2.1 "Eicar-Test-Signature" = true ∧
     strContains nc.2.1 "It has not been deleted from storage backend" = true ∧
     strContains nc.2.1 "%!s(*string=0xc000010250)" = true ∧
     strContains nc.2.1 "44d88612fea8a8f36de82e1278abb02f" = false) ∧
    Action.logInfoA [("bucket_key", "bkt/key1"), ("virus", "Eicar-Test-Signature"),
      ("md5_hash", "0xc000010250")] "found virus in a file"
      ∈ (processScan envEicar st0 eicarObj).2.2 := by
  decide

/-- C7: a request whose Content-Type does not begin with `application/json`,
or whose body is not parsable JSON, or whose object type is non-zero, gets
status 400 and no pipeline task is started. -/
theorem C7_invalid_requests_rejected (ct : String) (body : Option object) :
    (hasPrefixB ct applicationJSON = false →
      (scanObjectAsyncHandler ct body).status = 400 ∧
      (scanObjectAsyncHandler ct body).task = none) ∧
    (body = none →
      (scanObjectAsyncHandler ct body).status = 400 ∧
      (scanObjectAsyncHandler ct body).task = none) ∧
    (∀ d, body = some d → d.Typ ≠ 0 →
      (scanObjectAsyncHandler ct body).status = 400 ∧
      (scanObjectAsyncHandler ct body).task = none) := by
  refine ⟨?_, ?_, ?_⟩
  · intro h
    unfold scanObjectAsyncHandler
    simp [h]
  · rintro rfl
    unfold scanObjectAsyncHandler
    split
    · exact ⟨rfl, rfl⟩
    · exact ⟨rfl, rfl⟩
  · rintro d rfl hT
    unfold scanObjectAsyncHandler
    split
    · exact ⟨rfl, rfl⟩
    · simp [hT]

/-- C7 witness: the three rejection paths at concrete requests. -/
theorem C7_invalid_requests_rejected_witness :
    ((scanObjectAsyncHandler "text/plain" (some eicarObj)).status = 400 ∧
     (scanObjectAsyncHandler "text/plain" (some eicarObj)).task = none) ∧
    ((scanObjectAsyncHandler "application/json" none).status = 400 ∧
     (scanObjectAsyncHandler "application/json" none).task = none) ∧
    ((scanObjectAsyncHandler "application/json" (some typedObj)).status = 400 ∧
     (scanObjectAsyncHandler "application/json" (some typedObj)).task = none) :=
  ⟨(C7_invalid_requests_rejected "text/plain" (some eicarObj)).1 (by decide),
   (C7_invalid_requests_rejected "application/json" none).2.1 rfl,
   (C7_invalid_requests_rejected "application/json" (some typedObj)).2.2 typedObj rfl
     (by decide)⟩

/-- C10: every accepted request is answered with HTTP status 202 while the
JSON body's `code` field is 201, so the body code never matches the status
code on the accept path. -/
theorem C10_accepted_status_and_body_code_disagree (ct : String)
    (body : Option object) (d : object)
    (h : (scanObjectAsyncHandler ct body).task = some d) :
    (scanObjectAsyncHandler ct body).status = 202 ∧
    (scanObjectAsyncHandler ct body).bodyCode = 201 ∧
    (scanObjectAsyncHandler ct body).status ≠ (scanObjectAsyncHandler ct body).bodyCode := by
  revert h
  unfold scanObjectAsyncHandler
  split
  · intro h
    exact Option.noConfusion h
  · split
    · intro h
      exact Option.noConfusion h
    · split
      · intro h
        exact Option.noConfusion h
      · intro h
        refine ⟨rfl, rfl, ?_⟩
        show (202 : Nat) ≠ 201
        decide

/-- C10 witness: a concrete accepted request. -/
theorem C10_accepted_status_and_body_code_disagree_witness :
    (scanObjectAsyncHandler "application/json" (some eicarObj)).status = 202 ∧
    (scanObjectAsyncHandler "application/json" (some eicarObj)).bodyCode = 201 ∧
    (scanObjectAsyncHandler "application/json" (some eicarObj)).status ≠
      (scanObjectAsyncHandler "application/json" (some eicarObj)).bodyCode :=
  C10_accepted_status_and_body_code_disagree "application/json" (some eicarObj) eicarObj
    (by decide)

/-- C9: no pipeline run ever issues a deletion call — whatever the verdict,
the trace of `processScan` contains no `Remove` action, so the downloaded
temp file is never reclaimed by the pipeline. -/
theorem C9_no_deletion_call_ever (env : Env) (st : St) (o : object) :
    countRemove (processScan env st o).2.2 = 0 := by
  have hq := (scan_quiet env st o).2.2.1
  unfold processScan
  split
  next m st1 tr heq =>
    rw [heq] at hq
    exact hq
  next e st1 tr heq =>
    rw [heq] at hq
    exact ((notifyAndLog_trace env st1 tr _ _ _).2.2.2.2.1).trans hq
  next res st1 tr heq =>
    rw [heq] at hq
    split
    next e heqE =>
      exact ((notifyAndLog_trace env st1 tr _ _ _).2.2.2.2.1).trans hq
    next heqE =>
      split
      · refine ((notifyAndLog_trace env st1 _ _ _ _).2.2.2.2.1).trans ?_
        unfold countRemove at hq ⊢
        simp [List.countP_append, List.countP_cons, List.countP_nil, hq]
      · exact hq

/-- C5: with no webhook URL configured, the Notifier is a no-op that returns
success immediately, and no run of the pipeline — whatever its outcome —
performs an outbound HTTP POST. -/
theorem C5_unconfigured_notifier_never_posts (env : Env) (st : St) (o : object)
    (h : env.slackWebhookURL = "") :
    (∀ t x c, sendWebhook env t x c = (none, [Action.notifyA t x c])) ∧
    countPost (processScan env st o).2.2 = 0 := by
  refine ⟨fun t x c => sendWebhook_unconfigured env t x c h, ?_⟩
  have hq := (scan_quiet env st o).2.1
  unfold processScan
  split
  next m st1 tr heq =>
    rw [heq] at hq
    exact hq
  next e st1 tr heq =>
    rw [heq] at hq
    refine ((notifyAndLog_trace env st1 tr _ _ _).2.1).trans ?_
    rw [sendWebhook_unconfigured env _ _ _ h]
    unfold countPost at hq ⊢
    simp [List.countP_cons, List.countP_nil, hq]
  next res st1 tr heq =>
    rw [heq] at hq
    split
    next e heqE =>
      refine ((notifyAndLog_trace env st1 tr _ _ _).2.1).trans ?_
      rw [sendWebhook_unconfigured env _ _ _ h]
      unfold countPost at hq ⊢
      simp [List.countP_cons, List.countP_nil, hq]
    next heqE =>
      split
      · refine ((notifyAndLog_trace env st1 _ _ _ _).2.1).trans ?_
        rw [sendWebhook_unconfigured env _ _ _ h]
        unfold countPost at hq ⊢
        simp [List.countP_append, List.countP_cons, List.countP_nil, hq]
      · exact hq

/-- C5 witness: a concrete clean run with the webhook URL unset performs no
HTTP POST. -/
theorem C5_unconfigured_notifier_never_posts_witness :
    countPost (processScan envCleanNoHook st0 eicarObj).2.2 = 0 :=
  (C5_unconfigured_notifier_never_posts envCleanNoHook st0 eicarObj rfl).2

/-- C6: a run in which the scan engine reports a clean verdict (no detection,
no engine error) sends no notification, makes no HTTP POST, logs nothing at
error or info level, and returns without error: the pipeline ends silently. -/
theorem C6_clean_verdict_silent (env : Env) (st : St) (o : object)
    (r : ClamResult) (st1 : St) (tr : List Action)
    (h : scan env st o = (RunOutcome.result r, st1, tr))
    (hErr : r.Error = none) (hFound : r.Found = false) :
    countNotify (processScan env st o).2.2 = 0 ∧
    countPost (processScan env st o).2.2 = 0 ∧
    countLogErr (processScan env st o).2.2 = 0 ∧
    countLogInfo (processScan env st o).2.2 = 0 ∧
    (processScan env st o).1 = ProcResult.returned none := by
  obtain ⟨q1, q2, q3, q4, q5⟩ := scan_quiet env st o
  have hle := scan_ok_no_logErr env st o r st1 tr h
  rw [h] at q1 q2 q4
  unfold processScan
  rw [h]
  dsimp only
  rw [hErr]
  dsimp only
  simp only [hFound, Bool.false_eq_true, if_false]
  exact ⟨q1, q2, hle, q4, trivial⟩

/-- C6 witness: a concrete clean run (webhook configured) is silent. -/
theorem C6_clean_verdict_silent_witness :
    countNotify (processScan envClean st0 eicarObj).2.2 = 0 ∧
    countPost (processScan envClean st0 eicarObj).2.2 = 0 ∧
    countLogErr (processScan envClean st0 eicarObj).2.2 = 0 ∧
    countLogInfo (processScan envClean st0 eicarObj).2.2 = 0 ∧
    (processScan envClean st0 eicarObj).1 = ProcResult.returned none :=
  C6_clean_verdict_silent envClean st0 eicarObj ⟨false, "", none⟩
    ⟨"/tmp/bitscan_R1", 3⟩
    [Action.statA "/tmp/bitscan_R0", Action.mkdirA "/tmp/bitscan_R1",
     Action.createA "/tmp/bitscan_R1/R2", Action.chmodA "/tmp/bitscan_R1/R2",
     Action.fetchA "3,01637037d6", Action.clamA "/tmp/bitscan_R1/R2"]
    (by decide) rfl rfl

/-- C3: when the object fetch fails (temp path allocated, file created,
backend id present, `seaweed.Get` errors), the run produces exactly one
notifier invocation, whose title is built around the bucket key and whose
color is danger, and the scan engine is never invoked. -/
theorem C3_fetch_failure_one_danger_notification (env : Env) (st : St)
    (o : object) (p fid emsg : String) (st1 : St) (tr1 : List Action)
    (hg : getTempFilename env st (pathExt o.Key) = (Except.ok p, st1, tr1))
    (hc : env.createRes p = none)
    (hb : o.BackendFileID = some fid)
    (hf : env.fetchRes fid = some emsg) :
    countNotify (processScan env st o).2.2 = 1 ∧
    countClam (processScan env st o).2.2 = 0 ∧
    ∃ body, notifyCalls (processScan env st o).2.2 =
      [("Error scanning `" ++ o.BucketKey ++ "`", body, "danger")] := by
  have hscan : scan env st o =
      (RunOutcome.errored ("failed to get file from SeaweedFS backend: " ++ emsg), st1,
       (tr1 ++ [Action.createA p, Action.chmodA p]) ++
         [Action.fetchA fid, Action.logErrA "failed to get file from SeaweedFS backend"]) := by
    unfold scan
    rw [hg]
    dsimp only
    rw [hc]
    dsimp only
    rw [hb]
    dsimp only
    rw [hf]
  obtain ⟨q1, -, -, -, -⟩ := gtf_quiet env st (pathExt o.Key)
  have hclam := (gtf_trace_quiet env st (pathExt o.Key)).2.2.1
  rw [hg] at q1 hclam
  unfold processScan
  rw [hscan]
  refine ⟨?_, ?_, ?_⟩
  · refine ((notifyAndLog_trace env st1 _ _ _ _).1).trans ?_
    unfold countNotify at q1 ⊢
    simp [List.countP_append, List.countP_cons, List.countP_nil, q1]
  · refine ((notifyAndLog_trace env st1 _ _ _ _).2.2.1).trans ?_
    unfold countClam at hclam ⊢
    simp [List.countP_append, List.countP_cons, List.countP_nil, hclam]
  · have hcalls := (notifyAndLog_trace env st1
      ((tr1 ++ [Action.createA p, Action.chmodA p]) ++
        [Action.fetchA fid, Action.logErrA "failed to get file from SeaweedFS backend"])
      ("Error scanning `" ++ o.BucketKey ++ "`")
      ("```\n" ++ ("failed to get file from SeaweedFS backend: " ++ emsg) ++ "```")
      "danger").2.2.2.2.2.2.1
    have hnil : notifyCalls
        ((tr1 ++ [Action.createA p, Action.chmodA p]) ++
          [Action.fetchA fid, Action.logErrA "failed to get file from SeaweedFS backend"]) = [] := by
      refine notifyCalls_nil ?_
      unfold countNotify at q1 ⊢
      simp [List.countP_append, List.countP_cons, List.countP_nil, q1]
    rw [hnil, List.nil_append] at hcalls
    exact ⟨_, hcalls⟩

/-- C3 witness: a concrete run whose fetch fails sends one danger
notification and never invokes the scanner. -/
theorem C3_fetch_failure_one_danger_notification_witness :
    countNotify (processScan envFetchFail st0 eicarObj).2.2 = 1 ∧
    countClam (processScan envFetchFail st0 eicarObj).2.2 = 0 ∧
    ∃ body, notifyCalls (processScan envFetchFail st0 eicarObj).2.2 =
      [("Error scanning `" ++ eicarObj.BucketKey ++ "`", body, "danger")] :=
  C3_fetch_failure_one_danger_notification envFetchFail st0 eicarObj
    "/tmp/bitscan_R1/R2" "3,01637037d6" "connection refused"
    ⟨"/tmp/bitscan_R1", 3⟩
    [Action.statA "/tmp/bitscan_R0", Action.mkdirA "/tmp/bitscan_R1"]
    rfl rfl rfl rfl

/-- C8: the temp-file allocator's contract — on success the returned path is
the scratch directory joined with a randomized token followed by the
extension; when the checked scratch directory is missing or not a directory,
a directory (under a fresh identity) is created with `Mkdir` before the path
is returned; and when directory creation fails the allocator returns the
error and `scan` aborts without creating, fetching or scanning anything. -/
theorem C8_temp_allocator_contract (env : Env) (st : St) (ext : String)
    (o : object) :
    (∀ p st' tr, getTempFilename env st ext = (Except.ok p, st', tr) →
      p = st'.tmpDir ++ "/" ++ env.uni (st'.ctr - 1) ++ ext) ∧
    (∀ p st' tr, getTempFilename env st ext = (Except.ok p, st', tr) →
      env.statRes (checkedDir env st) ≠ some true →
      Action.mkdirA st'.tmpDir ∈ tr ∧ env.mkdirRes st'.tmpDir = none) ∧
    (∀ e st' tr, getTempFilename env st (pathExt o.Key) = (Except.error e, st', tr) →
      (scan env st o).1 = RunOutcome.errored e ∧
      countCreate (scan env st o).2.2 = 0 ∧
      countFetch (scan env st o).2.2 = 0 ∧
      countClam (scan env st o).2.2 = 0) := by
  refine ⟨?_, ?_, ?_⟩
  · intro p st' tr h
    revert h
    simp only [getTempFilename]
    split <;> split <;> try split
    all_goals intro h
    all_goals try exact Except.noConfusion (Prod.mk.injEq .. ▸ h).1
    all_goals simp only [Prod.mk.injEq, Except.ok.injEq] at h
    all_goals obtain ⟨h1, h2, h3⟩ := h
    all_goals rw [← h2]
    all_goals exact h1.symm
  · intro p st' tr h hstat
    unfold checkedDir at hstat
    revert h
    simp only [getTempFilename]
    split
    next htd =>
      rw [if_pos htd] at hstat
      split
      next hs =>
        intro h
        exact absurd hs hstat
      next hs =>
        split
        next e heqm =>
          intro h
          exact Except.noConfusion (Prod.mk.injEq .. ▸ h).1
        next heqm =>
          intro h
          simp only [Prod.mk.injEq, Except.ok.injEq] at h
          obtain ⟨h1, h2, h3⟩ := h
          rw [← h2, ← h3]
          exact ⟨by simp, heqm⟩
    next htd =>
      rw [if_neg htd] at hstat
      split
      next hs =>
        intro h
        exact absurd hs hstat
      next hs =>
        split
        next e heqm =>
          intro h
          exact Except.noConfusion (Prod.mk.injEq .. ▸ h).1
        next heqm =>
          intro h
          simp only [Prod.mk.injEq, Except.ok.injEq] at h
          obtain ⟨h1, h2, h3⟩ := h
          rw [← h2, ← h3]
          exact ⟨by simp, heqm⟩
  · intro e st' tr h
    have hq := gtf_trace_quiet env st (pathExt o.Key)
    rw [h] at hq
    obtain ⟨-, -, q3, q4, q5, -, -, -⟩ := hq
    unfold scan
    rw [h]
    exact ⟨rfl, q5, q4, q3⟩

/-- C8 witness: the three contract clauses at concrete allocations — a
successful allocation in a fresh process, the recreation of a missing
scratch directory, and an aborted scan after a failed `Mkdir`. -/
theorem C8_temp_allocator_contract_witness :
    ("/tmp/bitscan_R1/R2.txt" =
      (St.mk "/tmp/bitscan_R1" 3).tmpDir ++ "/" ++
        envEicar.uni ((St.mk "/tmp/bitscan_R1" 3).ctr - 1) ++ ".txt") ∧
    (Action.mkdirA (St.mk "/tmp/bitscan_R1" 3).tmpDir ∈
       [Action.statA "/tmp/bitscan_R0", Action.mkdirA "/tmp/bitscan_R1"] ∧
     envEicar.mkdirRes (St.mk "/tmp/bitscan_R1" 3).tmpDir = none) ∧
    ((scan envMkdirFail st0 eicarObj).1 = RunOutcome.errored "permission denied" ∧
     countCreate (scan envMkdirFail st0 eicarObj).2.2 = 0 ∧
     countFetch (scan envMkdirFail st0 eicarObj).2.2 = 0 ∧
     countClam (scan envMkdirFail st0 eicarObj).2.2 = 0) :=
  ⟨(C8_temp_allocator_contract envEicar st0 ".txt" eicarObj).1
      "/tmp/bitscan_R1/R2.txt" (St.mk "/tmp/bitscan_R1" 3)
      [Action.statA "/tmp/bitscan_R0", Action.mkdirA "/tmp/bitscan_R1"] rfl,
   (C8_temp_allocator_contract envEicar st0 ".txt" eicarObj).2.1
      "/tmp/bitscan_R1/R2.txt" (St.mk "/tmp/bitscan_R1" 3)
      [Action.statA "/tmp/bitscan_R0", Action.mkdirA "/tmp/bitscan_R1"] rfl (by decide),
   (C8_temp_allocator_contract envMkdirFail st0 "" eicarObj).2.2
      "permission denied" (St.mk "/tmp/bitscan_R1" 2)
      [Action.statA "/tmp/bitscan_R0", Action.mkdirA "/tmp/bitscan_R1",
       Action.logErrA "failed to generate temporary directory"] rfl⟩

/-- The Notifier's trace depends only on the configured URL, never on the
delivery outcome. -/
theorem sendWebhook_trace_url_only (env env' : Env) (t x c : String)
    (h : env.slackWebhookURL = env'.slackWebhookURL) :
    (sendWebhook env t x c).2 = (sendWebhook env' t x c).2 := by
  unfold sendWebhook
  rw [h]
  by_cases hc : env'.slackWebhookURL = ""
  · rw [if_pos hc, if_pos hc]
  · rw [if_neg hc, if_neg hc]

/-- Whenever a notify-and-log block reports a webhook failure, the
webhook-failure log line is in its trace. -/
theorem notifyAndLog_fail_logged (env : Env) (st1 : St) (pre : List Action)
    (t x c : String) (w : String)
    (hw : (notifyAndLog env st1 pre t x c).1 = ProcResult.returned (some w)) :
    Action.logErrA "failed to invoke webhook" ∈ (notifyAndLog env st1 pre t x c).2.2 := by
  have n10 := (notifyAndLog_trace env st1 pre t x c).2.2.2.2.2.2.2.2.2.1
  have n11 := (notifyAndLog_trace env st1 pre t x c).2.2.2.2.2.2.2.2.2.2
  rw [n10] at hw
  have hws : (sendWebhook env t x c).1 = some w := by
    injection hw
  exact n11 w hws

/-- C4: webhook (notifier) failures are logged and never escalate: two runs
that differ only in the webhook delivery outcome take the same
classification branch, end in the same state, and have the same trace up to
the webhook-failure log lines; and whenever the run records a webhook error,
the failure log line is in the trace.  (The goroutine's returned error value
is discarded by `go processScan(data)`, which `goProcessScan` models.) -/
theorem C4_notifier_failures_logged_never_escalated (env : Env)
    (pr pr' : String → Option String) (st : St) (o : object) :
    classifyRun { env with postRes := pr } st o =
      classifyRun { env with postRes := pr' } st o ∧
    (goProcessScan { env with postRes := pr } st o).1 =
      (goProcessScan { env with postRes := pr' } st o).1 ∧
    scrubWebhookFailLog (goProcessScan { env with postRes := pr } st o).2 =
      scrubWebhookFailLog (goProcessScan { env with postRes := pr' } st o).2 ∧
    (∀ w, (processScan { env with postRes := pr } st o).1 =
        ProcResult.returned (some w) →
      Action.logErrA "failed to invoke webhook" ∈
        (processScan { env with postRes := pr } st o).2.2) := by
  have hscan : scan { env with postRes := pr } st o =
      scan { env with postRes := pr' } st o := rfl
  have hclass : classifyRun { env with postRes := pr } st o =
      classifyRun { env with postRes := pr' } st o := by
    unfold classifyRun
    rw [hscan]
  refine ⟨hclass, ?_⟩
  unfold goProcessScan processScan
  rw [hscan]
  rcases hsc : scan { env with postRes := pr' } st o with ⟨out, st1, tr⟩
  cases out with
  | panicked m =>
    exact ⟨rfl, rfl, fun w hw => ProcResult.noConfusion hw⟩
  | errored e =>
    dsimp only
    refine ⟨?_, ?_, ?_⟩
    · exact ((notifyAndLog_trace _ _ _ _ _ _).2.2.2.2.2.2.2.2.1).trans
        (((notifyAndLog_trace _ _ _ _ _ _).2.2.2.2.2.2.2.2.1).symm)
    · refine ((notifyAndLog_trace _ _ _ _ _ _).2.2.2.2.2.2.2.1).trans ?_
      refine Eq.trans ?_ (((notifyAndLog_trace _ _ _ _ _ _).2.2.2.2.2.2.2.1).symm)
      rw [sendWebhook_trace_url_only { env with postRes := pr }
        { env with postRes := pr' } _ _ _ rfl]
    · exact fun w hw => notifyAndLog_fail_logged _ _ _ _ _ _ w hw
  | result res =>
    rcases res with ⟨rFound, rVirus, rError⟩
    dsimp only
    cases rError with
    | some e =>
      dsimp only
      refine ⟨?_, ?_, ?_⟩
      · exact ((notifyAndLog_trace _ _ _ _ _ _).2.2.2.2.2.2.2.2.1).trans
          (((notifyAndLog_trace _ _ _ _ _ _).2.2.2.2.2.2.2.2.1).symm)
      · refine ((notifyAndLog_trace _ _ _ _ _ _).2.2.2.2.2.2.2.1).trans ?_
        refine Eq.trans ?_ (((notifyAndLog_trace _ _ _ _ _ _).2.2.2.2.2.2.2.1).symm)
        rw [sendWebhook_trace_url_only { env with postRes := pr }
          { env with postRes := pr' } _ _ _ rfl]
      · exact fun w hw => notifyAndLog_fail_logged _ _ _ _ _ _ w hw
    | none =>
      cases rFound with
      | true =>
        dsimp only
        rw [if_pos rfl, if_pos rfl]
        refine ⟨?_, ?_, ?_⟩
        · exact ((notifyAndLog_trace _ _ _ _ _ _).2.2.2.2.2.2.2.2.1).trans
            (((notifyAndLog_trace _ _ _ _ _ _).2.2.2.2.2.2.2.2.1).symm)
        · refine ((notifyAndLog_trace _ _ _ _ _ _).2.2.2.2.2.2.2.1).trans ?_
          refine Eq.trans ?_ (((notifyAndLog_trace _ _ _ _ _ _).2.2.2.2.2.2.2.1).symm)
          rw [sendWebhook_trace_url_only { env with postRes := pr }
            { env with postRes := pr' } _ _ _ rfl]
        · exact fun w hw => notifyAndLog_fail_logged _ _ _ _ _ _ w hw
      | false =>
        dsimp only
        rw [if_neg Bool.false_ne_true, if_neg Bool.false_ne_true]
        exact ⟨rfl, rfl, fun w hw => Option.noConfusion (ProcResult.returned.injEq .. ▸ hw)⟩

/-- C4 witness: a concrete detected run whose webhook delivery fails is
classified like the run whose delivery succeeds, and the failure is in the
log. -/
theorem C4_notifier_failures_logged_never_escalated_witness :
    classifyRun { envEicar with postRes := fun _ => some "dial tcp: i/o timeout" } st0 eicarObj =
      classifyRun { envEicar with postRes := fun _ => none } st0 eicarObj ∧
    Action.logErrA "failed to invoke webhook" ∈
      (processScan { envEicar with postRes := fun _ => some "dial tcp: i/o timeout" } st0 eicarObj).2.2 :=
  ⟨(C4_notifier_failures_logged_never_escalated envEicar
      (fun _ => some "dial tcp: i/o timeout") (fun _ => none) st0 eicarObj).1,
   (C4_notifier_failures_logged_never_escalated envEicar
      (fun _ => some "dial tcp: i/o timeout") (fun _ => none) st0 eicarObj).2.2.2
     "dial tcp: i/o timeout" (by decide)⟩

end Bitscan
